import Mathlib

/-!
Verification of the MPU6050 driver scripts (`mpu6050_recorder.py`,
`mpu6050_plot_2.py`, `motion_led.py`): register word decoding, range
configuration, unit conversion, degraded-read handling, the motion
classification loop of `motion_led.main`, and the CSV output format of
`mpu6050_recorder.main`.

Machine integers are modelled as `Nat`/`Int`; Python floats are modelled
as `ℚ` (the scripts only ever combine decimal literals with integer
register words by `+ - * /`), except for the `math.sqrt` calls of the
motion classifier, which are modelled with `Real.sqrt` over `ℝ`.
A bus byte read that may raise `IOError` is modelled as a function
`Nat → Option Nat` from register address to the byte read, `none`
standing for the raised error.
-/

namespace MPU6050

/-- Standard gravity, the class constant `GRAVITIY_MS2 = 9.80665` shared by
all three scripts. -/
def GRAVITIY_MS2 : ℚ := 9.80665

/-- Accelerometer scale modifier for the 2G range (LSB per g). -/
def ACCEL_SCALE_MODIFIER_2G : ℚ := 16384

/-- Accelerometer scale modifier for the 4G range. -/
def ACCEL_SCALE_MODIFIER_4G : ℚ := 8192

/-- Accelerometer scale modifier for the 8G range. -/
def ACCEL_SCALE_MODIFIER_8G : ℚ := 4096

/-- Accelerometer scale modifier for the 16G range. -/
def ACCEL_SCALE_MODIFIER_16G : ℚ := 2048

/-- Gyroscope scale modifier for the 250 deg/s range (LSB per deg/s). -/
def GYRO_SCALE_MODIFIER_250DEG : ℚ := 131

/-- Gyroscope scale modifier for the 500 deg/s range. -/
def GYRO_SCALE_MODIFIER_500DEG : ℚ := 65.5

/-- Gyroscope scale modifier for the 1000 deg/s range. -/
def GYRO_SCALE_MODIFIER_1000DEG : ℚ := 32.8

/-- Gyroscope scale modifier for the 2000 deg/s range. -/
def GYRO_SCALE_MODIFIER_2000DEG : ℚ := 16.4

/-- Register byte code for the 2G accelerometer range. -/
def ACCEL_RANGE_2G : Nat := 0x00

/-- Register byte code for the 4G accelerometer range. -/
def ACCEL_RANGE_4G : Nat := 0x08

/-- Register byte code for the 8G accelerometer range. -/
def ACCEL_RANGE_8G : Nat := 0x10

/-- Register byte code for the 16G accelerometer range. -/
def ACCEL_RANGE_16G : Nat := 0x18

/-- Register byte code for the 250 deg/s gyroscope range. -/
def GYRO_RANGE_250DEG : Nat := 0x00

/-- Register byte code for the 500 deg/s gyroscope range. -/
def GYRO_RANGE_500DEG : Nat := 0x08

/-- Register byte code for the 1000 deg/s gyroscope range. -/
def GYRO_RANGE_1000DEG : Nat := 0x10

/-- Register byte code for the 2000 deg/s gyroscope range. -/
def GYRO_RANGE_2000DEG : Nat := 0x18

/-- The pure decoding step shared by every `read_i2c_word` variant:
assemble `value = (high << 8) + low` and return
`-((65535 - value) + 1)` when `value >= 0x8000`, else `value`. -/
def read_i2c_word_decode (high low : Nat) : Int :=
  let value : Nat := (high <<< 8) + low
  if value ≥ 0x8000 then -(((65535 : Int) - (value : Int)) + 1) else (value : Int)

/-- `read_i2c_word` of `mpu6050_recorder.py` (identical in `motion_led.py`):
the two byte reads sit inside `try`, and any `IOError` makes the method
return `0` instead of propagating. -/
def read_i2c_word_rec (bus : Nat → Option Nat) (register : Nat) : Int :=
  match bus register, bus (register + 1) with
  | some high, some low => read_i2c_word_decode high low
  | _, _ => 0

/-- `read_i2c_word` of `mpu6050_plot_2.py`: no `try`/`except`, so a failing
byte read propagates the `IOError` to the caller (`none` here). -/
def read_i2c_word_plot (bus : Nat → Option Nat) (register : Nat) : Option Int := do
  let high ← bus register
  let low ← bus (register + 1)
  pure (read_i2c_word_decode high low)

/-- Helper: the decoded word, reduced modulo 65536, recovers the assembled
unsigned word. -/
theorem read_i2c_word_decode_emod (high low : Nat) (hh : high ≤ 255) (hl : low ≤ 255) :
    read_i2c_word_decode high low % 65536 = (((high <<< 8) + low : Nat) : Int) := by
  simp only [read_i2c_word_decode, Nat.shiftLeft_eq]
  norm_num
  split_ifs with h1 <;> push_cast <;> omega

/-- C1: for register bytes `high, low ≤ 255`, `read_i2c_word`'s decode
returns the assembled word `(high << 8) + low` when it is below `0x8000`
and that word minus 65536 otherwise; in particular `0xFFFF ↦ -1`,
`0x8000 ↦ -32768`, `0x7FFF ↦ 32767`, `0x0000 ↦ 0`. -/
theorem C1_read_i2c_word_twos_complement (high low : Nat)
    (hh : high ≤ 255) (hl : low ≤ 255) :
    (read_i2c_word_decode high low =
      if (high <<< 8) + low < 0x8000 then (((high <<< 8) + low : Nat) : Int)
      else (((high <<< 8) + low : Nat) : Int) - 65536) ∧
    read_i2c_word_decode 0xFF 0xFF = -1 ∧
    read_i2c_word_decode 0x80 0x00 = -32768 ∧
    read_i2c_word_decode 0x7F 0xFF = 32767 ∧
    read_i2c_word_decode 0x00 0x00 = 0 := by
  refine ⟨?_, by decide, by decide, by decide, by decide⟩
  simp only [read_i2c_word_decode, Nat.shiftLeft_eq]
  norm_num
  split_ifs with h1 h2 <;> push_cast <;> omega

/-- Witness for C1 at the concrete bytes `(0xFF, 0xFF)`. -/
theorem C1_read_i2c_word_twos_complement_witness :
    read_i2c_word_decode 0xFF 0xFF = -1 :=
  (C1_read_i2c_word_twos_complement 0xFF 0xFF (by decide) (by decide)).2.1

/-- C10: for register bytes `high, low ≤ 255`, the decoded value lies in
`[-32768, 32767]`, its residue modulo 65536 is the assembled word
`(high << 8) + low`, and the decode is injective on raw words. -/
theorem C10_read_i2c_word_decode_range_invertible (high low : Nat)
    (hh : high ≤ 255) (hl : low ≤ 255) :
    (-32768 ≤ read_i2c_word_decode high low ∧ read_i2c_word_decode high low ≤ 32767) ∧
    read_i2c_word_decode high low % 65536 = (((high <<< 8) + low : Nat) : Int) ∧
    ∀ high2 low2 : Nat, high2 ≤ 255 → low2 ≤ 255 →
      read_i2c_word_decode high low = read_i2c_word_decode high2 low2 →
      (high <<< 8) + low = (high2 <<< 8) + low2 := by
  refine ⟨?_, read_i2c_word_decode_emod high low hh hl, ?_⟩
  · simp only [read_i2c_word_decode, Nat.shiftLeft_eq]
    norm_num
    split_ifs with h1 <;> push_cast <;> omega
  · intro high2 low2 hh2 hl2 heq
    have e1 := read_i2c_word_decode_emod high low hh hl
    have e2 := read_i2c_word_decode_emod high2 low2 hh2 hl2
    rw [heq, e2] at e1
    exact_mod_cast e1.symm

/-- Witness for C10 at the concrete bytes `(0x80, 0x00)` and `(0x12, 0x34)`. -/
theorem C10_read_i2c_word_decode_range_invertible_witness :
    (-32768 ≤ read_i2c_word_decode 0x80 0x00 ∧ read_i2c_word_decode 0x80 0x00 ≤ 32767) ∧
    read_i2c_word_decode 0x80 0x00 % 65536 = (((0x80 <<< 8) + 0x00 : Nat) : Int) :=
  ⟨(C10_read_i2c_word_decode_range_invertible 0x80 0x00 (by decide) (by decide)).1,
   (C10_read_i2c_word_decode_range_invertible 0x80 0x00 (by decide) (by decide)).2.1⟩

/-- C5: counterexample — the `mpu6050_plot_2.py` variant of `read_i2c_word`
propagates a bus read failure instead of returning `0`: with a bus whose
reads all fail, the call yields the propagated error (`none`), not `some 0`. -/
theorem C5_plot_read_propagates_cex :
    read_i2c_word_plot (fun _ => none) 0x3B = none ∧
    read_i2c_word_plot (fun _ => none) 0x3B ≠ some 0 := by
  constructor <;> simp [read_i2c_word_plot]

/-- C5 (amended): in the `mpu6050_recorder.py` / `motion_led.py` variant,
whenever either byte read of a word fails, `read_i2c_word` returns `0`
instead of propagating the error. -/
theorem C5_rec_read_returns_zero_on_failure (bus : Nat → Option Nat) (register : Nat)
    (h : bus register = none ∨ bus (register + 1) = none) :
    read_i2c_word_rec bus register = 0 := by
  rcases h with h | h <;> simp only [read_i2c_word_rec, h] <;>
    cases bus register <;> simp

/-- Witness for the amended C5: an always-failing bus at the accel X
register yields `0`. -/
theorem C5_rec_read_returns_zero_on_failure_witness :
    read_i2c_word_rec (fun _ => none) 0x3B = 0 :=
  C5_rec_read_returns_zero_on_failure (fun _ => none) 0x3B (Or.inl rfl)

/-- `read_accel_range(raw)` of `mpu6050_plot_2.py` on a successfully read
config byte `raw_data`: the raw byte itself when `raw`, else the mapped
range, with `-1` as the sentinel for an unrecognized byte. -/
def read_accel_range_plot (raw_data : Nat) (raw : Bool) : Int :=
  if raw then (raw_data : Int)
  else if raw_data = ACCEL_RANGE_2G then 2
  else if raw_data = ACCEL_RANGE_4G then 4
  else if raw_data = ACCEL_RANGE_8G then 8
  else if raw_data = ACCEL_RANGE_16G then 16
  else -1

/-- `read_gyro_range(raw)` of `mpu6050_plot_2.py` on a successfully read
config byte. -/
def read_gyro_range_plot (raw_data : Nat) (raw : Bool) : Int :=
  if raw then (raw_data : Int)
  else if raw_data = GYRO_RANGE_250DEG then 250
  else if raw_data = GYRO_RANGE_500DEG then 500
  else if raw_data = GYRO_RANGE_1000DEG then 1000
  else if raw_data = GYRO_RANGE_2000DEG then 2000
  else -1

/-- The accel scale-modifier selection of `get_accel_data` in
`mpu6050_plot_2.py`, from the freshly read config byte; the `Bool` records
whether the unknown-range warning branch was taken (falling back to the
2G modifier). -/
def accel_modifier_plot (cfg : Nat) : ℚ × Bool :=
  if cfg = ACCEL_RANGE_2G then (ACCEL_SCALE_MODIFIER_2G, false)
  else if cfg = ACCEL_RANGE_4G then (ACCEL_SCALE_MODIFIER_4G, false)
  else if cfg = ACCEL_RANGE_8G then (ACCEL_SCALE_MODIFIER_8G, false)
  else if cfg = ACCEL_RANGE_16G then (ACCEL_SCALE_MODIFIER_16G, false)
  else (ACCEL_SCALE_MODIFIER_2G, true)

/-- The gyro scale-modifier selection of `get_gyro_data` in
`mpu6050_plot_2.py`, with the warning flag for the fallback branch. -/
def gyro_modifier_plot (cfg : Nat) : ℚ × Bool :=
  if cfg = GYRO_RANGE_250DEG then (GYRO_SCALE_MODIFIER_250DEG, false)
  else if cfg = GYRO_RANGE_500DEG then (GYRO_SCALE_MODIFIER_500DEG, false)
  else if cfg = GYRO_RANGE_1000DEG then (GYRO_SCALE_MODIFIER_1000DEG, false)
  else if cfg = GYRO_RANGE_2000DEG then (GYRO_SCALE_MODIFIER_2000DEG, false)
  else (GYRO_SCALE_MODIFIER_250DEG, true)

/-- C7: any config byte outside the four recognized range codes makes
`read_accel_range` / `read_gyro_range` (with `raw=False`) return the `-1`
"Unknown" sentinel without raising, and the subsequent conversion falls
back to the default modifier (2G resp. 250 deg/s) with its warning flag
set, rather than crashing. -/
theorem C7_unknown_range_sentinel_and_fallback (b : Nat)
    (h : b ≠ 0x00 ∧ b ≠ 0x08 ∧ b ≠ 0x10 ∧ b ≠ 0x18) :
    read_accel_range_plot b false = -1 ∧
    read_gyro_range_plot b false = -1 ∧
    accel_modifier_plot b = (ACCEL_SCALE_MODIFIER_2G, true) ∧
    gyro_modifier_plot b = (GYRO_SCALE_MODIFIER_250DEG, true) := by
  obtain ⟨h0, h8, h16, h24⟩ := h
  refine ⟨?_, ?_, ?_, ?_⟩ <;>
    simp [read_accel_range_plot, read_gyro_range_plot, accel_modifier_plot,
      gyro_modifier_plot, ACCEL_RANGE_2G, ACCEL_RANGE_4G, ACCEL_RANGE_8G,
      ACCEL_RANGE_16G, GYRO_RANGE_250DEG, GYRO_RANGE_500DEG, GYRO_RANGE_1000DEG,
      GYRO_RANGE_2000DEG, h0, h8, h16, h24]

/-- Witness for C7 at the unrecognized config byte `0x05`. -/
theorem C7_unknown_range_sentinel_and_fallback_witness :
    read_accel_range_plot 0x05 false = -1 ∧
    read_gyro_range_plot 0x05 false = -1 ∧
    accel_modifier_plot 0x05 = (ACCEL_SCALE_MODIFIER_2G, true) ∧
    gyro_modifier_plot 0x05 = (GYRO_SCALE_MODIFIER_250DEG, true) :=
  C7_unknown_range_sentinel_and_fallback 0x05
    ⟨by decide, by decide, by decide, by decide⟩

/-- `set_accel_range` of `motion_led.py` / `mpu6050_recorder.py`: a single
guarded register write; `cfg` is the config register content before the
call, `ok` tells whether the bus write succeeds, and the result is the
register content afterwards (the `IOError` is caught and only logged). -/
def set_accel_range_led (cfg : Nat) (ok : Bool) (accel_range : Nat) : Nat :=
  if ok then accel_range else cfg

/-- `set_gyro_range` of `motion_led.py` / `mpu6050_recorder.py`. -/
def set_gyro_range_led (cfg : Nat) (ok : Bool) (gyro_range : Nat) : Nat :=
  if ok then gyro_range else cfg

/-- `set_accel_range` of `mpu6050_plot_2.py`: first writes `0x00` to the
config register, then the requested range; `ok1`, `ok2` tell whether each
write succeeds (a failing write raises into the `except`, leaving the
register as the preceding writes left it). -/
def set_accel_range_plot (cfg : Nat) (ok1 ok2 : Bool) (accel_range : Nat) : Nat :=
  if ok1 then (if ok2 then accel_range else 0x00) else cfg

/-- `set_gyro_range` of `mpu6050_plot_2.py`, same two-write shape. -/
def set_gyro_range_plot (cfg : Nat) (ok1 ok2 : Bool) (gyro_range : Nat) : Nat :=
  if ok1 then (if ok2 then gyro_range else 0x00) else cfg

/-- C8: counterexample — in the `mpu6050_plot_2.py` variant, when the
preliminary `0x00` write succeeds and the write of the requested range
fails, the config register is left at `0x00`, which is neither the old
range (here 8G, `0x10`) nor the requested one (16G, `0x18`). -/
theorem C8_plot_set_range_zero_cex :
    set_accel_range_plot 0x10 true false 0x18 = 0x00 ∧
    (0x00 : Nat) ≠ 0x10 ∧ (0x00 : Nat) ≠ 0x18 := by
  refine ⟨rfl, by decide, by decide⟩

/-- C8 (amended): range-set failures never propagate, and the register is
left at the old or the requested range for the single-write variants
(`motion_led.py`, `mpu6050_recorder.py`); the two-write `mpu6050_plot_2.py`
variant can additionally leave it at `0x00` (the 2G / 250 deg/s code) when
its second write fails. -/
theorem C8_set_range_outcomes (cfg r : Nat) (ok ok1 ok2 : Bool) :
    (set_accel_range_led cfg ok r = r ∨ set_accel_range_led cfg ok r = cfg) ∧
    (set_gyro_range_led cfg ok r = r ∨ set_gyro_range_led cfg ok r = cfg) ∧
    (set_accel_range_plot cfg ok1 ok2 r = r ∨ set_accel_range_plot cfg ok1 ok2 r = cfg ∨
      set_accel_range_plot cfg ok1 ok2 r = 0x00) ∧
    (set_gyro_range_plot cfg ok1 ok2 r = r ∨ set_gyro_range_plot cfg ok1 ok2 r = cfg ∨
      set_gyro_range_plot cfg ok1 ok2 r = 0x00) := by
  refine ⟨?_, ?_, ?_, ?_⟩ <;>
    simp only [set_accel_range_led, set_gyro_range_led, set_accel_range_plot,
      set_gyro_range_plot] <;>
    cases ok <;> cases ok1 <;> cases ok2 <;> simp

/-- The accel scale-modifier selection of `get_accel_data` in
`mpu6050_recorder.py`: default 2G, overridden by the `if`/`elif` chain on
the freshly read config byte. -/
def accel_scale_modifier_from_cfg (cfg : Nat) : ℚ :=
  if cfg = ACCEL_RANGE_2G then ACCEL_SCALE_MODIFIER_2G
  else if cfg = ACCEL_RANGE_4G then ACCEL_SCALE_MODIFIER_4G
  else if cfg = ACCEL_RANGE_8G then ACCEL_SCALE_MODIFIER_8G
  else if cfg = ACCEL_RANGE_16G then ACCEL_SCALE_MODIFIER_16G
  else ACCEL_SCALE_MODIFIER_2G

/-- The gyro scale-modifier selection of `get_gyro_data` in
`mpu6050_recorder.py`. -/
def gyro_scale_modifier_from_cfg (cfg : Nat) : ℚ :=
  if cfg = GYRO_RANGE_250DEG then GYRO_SCALE_MODIFIER_250DEG
  else if cfg = GYRO_RANGE_500DEG then GYRO_SCALE_MODIFIER_500DEG
  else if cfg = GYRO_RANGE_1000DEG then GYRO_SCALE_MODIFIER_1000DEG
  else if cfg = GYRO_RANGE_2000DEG then GYRO_SCALE_MODIFIER_2000DEG
  else GYRO_SCALE_MODIFIER_250DEG

/-- `get_accel_data(g)` of `mpu6050_recorder.py` on successfully decoded
axis words `wx, wy, wz`: `cfg` is the config register content returned by
`read_accel_range(True)` at this call; each word is divided by the
modifier for `cfg` and, unless g-units were requested, multiplied by
`GRAVITIY_MS2`. -/
def get_accel_data_rec (cfg : Nat) (wx wy wz : Int) (g : Bool) : ℚ × ℚ × ℚ :=
  let accel_scale_modifier := accel_scale_modifier_from_cfg cfg
  let x := (wx : ℚ) / accel_scale_modifier
  let y := (wy : ℚ) / accel_scale_modifier
  let z := (wz : ℚ) / accel_scale_modifier
  if g then (x, y, z)
  else (x * GRAVITIY_MS2, y * GRAVITIY_MS2, z * GRAVITIY_MS2)

/-- `get_accel_data(g)` of `motion_led.py`: the config register content
`cfg` is never read — the modifier is hardcoded to
`ACCEL_SCALE_MODIFIER_2G` ("Using default range"). -/
def get_accel_data_led (cfg : Nat) (wx wy wz : Int) (g : Bool) : ℚ × ℚ × ℚ :=
  let accel_scale_modifier := ACCEL_SCALE_MODIFIER_2G
  let x := (wx : ℚ) / accel_scale_modifier
  let y := (wy : ℚ) / accel_scale_modifier
  let z := (wz : ℚ) / accel_scale_modifier
  if g then (x, y, z)
  else (x * GRAVITIY_MS2, y * GRAVITIY_MS2, z * GRAVITIY_MS2)

/-- `get_gyro_data()` of `mpu6050_recorder.py` on decoded axis words: all
three words are divided by the modifier for the freshly read gyro config
byte `cfg` (with the dead zero-modifier guard of the source kept). -/
def get_gyro_data_rec (cfg : Nat) (wx wy wz : Int) : ℚ × ℚ × ℚ :=
  let gyro_scale_modifier := gyro_scale_modifier_from_cfg cfg
  if gyro_scale_modifier = 0 then (0, 0, 0)
  else ((wx : ℚ) / gyro_scale_modifier, (wy : ℚ) / gyro_scale_modifier,
    (wz : ℚ) / gyro_scale_modifier)

/-- `get_gyro_data()` of `mpu6050_plot_2.py`: x and y are scaled, but the
scaling of z is commented out and replaced by a second raw
`read_i2c_word(GYRO_ZOUT0)`, whose decoded word `wz2` is returned
unscaled. -/
def get_gyro_data_plot (cfg : Nat) (wx wy wz wz2 : Int) : ℚ × ℚ × ℚ :=
  let gyro_scale_modifier := gyro_modifier_plot cfg |>.1
  ((wx : ℚ) / gyro_scale_modifier, (wy : ℚ) / gyro_scale_modifier, (wz2 : ℚ))

/-- C3: counterexample — in `motion_led.py`, `get_accel_data` ignores the
config register: with the register set to the 4G code and axis word 16384
it still converts with the 2G modifier (yielding 1 g), while the modifier
determined by the freshly read byte (8192) yields 2 g; a range change
between two calls therefore does not affect the second call. -/
theorem C3_led_hardcoded_modifier_cex :
    get_accel_data_led ACCEL_RANGE_4G 16384 0 0 true =
      get_accel_data_led ACCEL_RANGE_2G 16384 0 0 true ∧
    get_accel_data_led ACCEL_RANGE_4G 16384 0 0 true = (1, 0, 0) ∧
    (16384 : ℚ) / accel_scale_modifier_from_cfg ACCEL_RANGE_4G = 2 ∧
    (1 : ℚ) ≠ 2 := by
  refine ⟨rfl, ?_, ?_, by norm_num⟩ <;>
    norm_num [get_accel_data_led, accel_scale_modifier_from_cfg,
      ACCEL_RANGE_2G, ACCEL_RANGE_4G, ACCEL_SCALE_MODIFIER_2G,
      ACCEL_SCALE_MODIFIER_4G]

/-- C3 (amended): in the `mpu6050_recorder.py` variant, `get_accel_data`
divides each axis word by the modifier for the config byte read fresh at
that call — so a range change between two calls changes the second call's
conversion — multiplies by 9.80665 when physical units are requested, and
converts the word 16384 at 2G to exactly 1 g-unit and 9.80665 m/s²; the
`motion_led.py` variant instead always uses the hardcoded 2G modifier. -/
theorem C3_rec_fresh_range_scaling (cfg : Nat) (wx wy wz : Int) (w : Int)
    (hw : w ≠ 0) :
    get_accel_data_rec cfg wx wy wz true =
      ((wx : ℚ) / accel_scale_modifier_from_cfg cfg,
       (wy : ℚ) / accel_scale_modifier_from_cfg cfg,
       (wz : ℚ) / accel_scale_modifier_from_cfg cfg) ∧
    get_accel_data_rec cfg wx wy wz false =
      ((wx : ℚ) / accel_scale_modifier_from_cfg cfg * GRAVITIY_MS2,
       (wy : ℚ) / accel_scale_modifier_from_cfg cfg * GRAVITIY_MS2,
       (wz : ℚ) / accel_scale_modifier_from_cfg cfg * GRAVITIY_MS2) ∧
    get_accel_data_rec ACCEL_RANGE_4G w 0 0 true ≠
      get_accel_data_rec ACCEL_RANGE_2G w 0 0 true ∧
    get_accel_data_rec ACCEL_RANGE_2G 16384 0 0 true = (1, 0, 0) ∧
    get_accel_data_rec ACCEL_RANGE_2G 16384 0 0 false = (9.80665, 0, 0) := by
  refine ⟨rfl, rfl, ?_, ?_, ?_⟩
  · intro hcontra
    have h1 := congrArg Prod.fst hcontra
    simp only [get_accel_data_rec, accel_scale_modifier_from_cfg,
      ACCEL_RANGE_2G, ACCEL_RANGE_4G, ACCEL_SCALE_MODIFIER_2G,
      ACCEL_SCALE_MODIFIER_4G, if_true] at h1
    norm_num at h1
    rw [div_eq_div_iff (by norm_num) (by norm_num)] at h1
    have : (w : ℚ) = 0 := by linarith
    exact hw (by exact_mod_cast this)
  · norm_num [get_accel_data_rec, accel_scale_modifier_from_cfg,
      ACCEL_RANGE_2G, ACCEL_SCALE_MODIFIER_2G]
  · norm_num [get_accel_data_rec, accel_scale_modifier_from_cfg,
      ACCEL_RANGE_2G, ACCEL_SCALE_MODIFIER_2G, GRAVITIY_MS2]

/-- Witness for the amended C3 at config byte `0x08` (4G) and words
`(16384, 0, 0)`, exercising the nonzero-word hypothesis with `w = 16384`. -/
theorem C3_rec_fresh_range_scaling_witness :
    get_accel_data_rec ACCEL_RANGE_4G 16384 0 0 true ≠
      get_accel_data_rec ACCEL_RANGE_2G 16384 0 0 true ∧
    get_accel_data_rec ACCEL_RANGE_2G 16384 0 0 true = (1, 0, 0) :=
  ⟨(C3_rec_fresh_range_scaling 0x08 16384 0 0 16384 (by decide)).2.2.1,
   (C3_rec_fresh_range_scaling 0x08 16384 0 0 16384 (by decide)).2.2.2.1⟩

/-- C4: in the `mpu6050_plot_2.py` variant of `get_gyro_data`, the z
component is returned as the raw re-read word, unscaled: at the 250 deg/s
range with every gyro word decoding to 131, x and y convert to 1 deg/s but
z is returned as 131, not 131 / 131.0 = 1. -/
theorem C4_plot_gyro_z_unscaled :
    get_gyro_data_plot GYRO_RANGE_250DEG 131 131 131 131 = (1, 1, 131) ∧
    get_gyro_data_rec GYRO_RANGE_250DEG 131 131 131 = (1, 1, 1) ∧
    (131 : ℚ) ≠ 131 / GYRO_SCALE_MODIFIER_250DEG := by
  refine ⟨?_, ?_, ?_⟩ <;>
    norm_num [get_gyro_data_plot, get_gyro_data_rec, gyro_modifier_plot,
      gyro_scale_modifier_from_cfg, GYRO_RANGE_250DEG,
      GYRO_SCALE_MODIFIER_250DEG]

/-- A physical-unit sample fed to the motion-detection loop of
`motion_led.main`: acceleration in m/s² and angular rate in deg/s. -/
structure Sample where
  ax : ℚ
  ay : ℚ
  az : ℚ
  gx : ℚ
  gy : ℚ
  gz : ℚ

/-- The accel-delta threshold `ACCEL_DELTA_THRESHOLD = 3.419` of
`motion_led.main`. -/
def ACCEL_DELTA_THRESHOLD : ℚ := 3.419

/-- The gyro-magnitude threshold `GYRO_MAG_THRESHOLD = 10.0` of
`motion_led.main`. -/
def GYRO_MAG_THRESHOLD : ℚ := 10.0

/-- `is_moving_now` of `motion_led.main`:
`abs(sqrt(ax²+ay²+az²) - GRAVITIY_MS2) > ACCEL_DELTA_THRESHOLD or
sqrt(gx²+gy²+gz²) > GYRO_MAG_THRESHOLD`. -/
def isMoving (s : Sample) : Prop :=
  |Real.sqrt ((s.ax : ℝ) ^ 2 + (s.ay : ℝ) ^ 2 + (s.az : ℝ) ^ 2) - (GRAVITIY_MS2 : ℝ)| >
      (ACCEL_DELTA_THRESHOLD : ℝ) ∨
    Real.sqrt ((s.gx : ℝ) ^ 2 + (s.gy : ℝ) ^ 2 + (s.gz : ℝ) ^ 2) > (GYRO_MAG_THRESHOLD : ℝ)

/-- One pass of the state-transition logic of `motion_led.main`, given the
stored state `st` (`last_state_moving`) and the decision `mv`
(`is_moving_now`): the stored state becomes `mv`, and the
transition-specific action (the status print on becoming moving, the alert
capture on becoming stationary) fires exactly when `mv` differs from
`st`. -/
def stepClassifier (st mv : Bool) : Bool × Bool := (mv, mv != st)

/-- The stored-state trace of the loop over a list of per-sample motion
decisions: each cycle ends with `last_state_moving = is_moving_now`. -/
def runStates : Bool → List Bool → List Bool
  | _, [] => []
  | _, mv :: rest => mv :: runStates mv rest

/-- The transition-event trace of the loop: one flag per cycle, `true`
exactly when that cycle fired a transition action. -/
def runEvents : Bool → List Bool → List Bool
  | _, [] => []
  | st, mv :: rest => (mv != st) :: runEvents mv rest

/-- Number of transition events produced over a run. -/
def eventCount (st : Bool) (l : List Bool) : Nat :=
  (runEvents st l).count true

/-- One full poll cycle of `motion_led.main` including the degraded-read
guard: if the acceleration triple is exactly `(0, 0, 0)` the cycle is
skipped (state kept, no LED write, no transition action); otherwise the
LED is driven to `mv` every cycle and the classifier step runs. Result:
(new stored state, LED action if any, transition-action flag). -/
def cycleStep (st mv : Bool) (s : Sample) : Bool × Option Bool × Bool :=
  if s.ax = 0 ∧ s.ay = 0 ∧ s.az = 0 then (st, none, false)
  else (mv, some mv, mv != st)

/-- Helper: the stored-state trace is exactly the decision sequence. -/
theorem runStates_eq (bs : List Bool) : ∀ st : Bool, runStates st bs = bs := by
  induction bs with
  | nil => intro st; rfl
  | cons mv rest ih => intro st; simp [runStates, ih]

/-- Helper: the event trace compares each decision with the previous
stored state (initially `st`). -/
theorem runEvents_eq_zipWith (bs : List Bool) :
    ∀ st : Bool, runEvents st bs = List.zipWith (fun a b => a != b) bs (st :: bs) := by
  induction bs with
  | nil => intro st; rfl
  | cons mv rest ih => intro st; simp [runEvents, ih]

/-- Helper: a block of decisions equal to the current state produces no
events and keeps the state. -/
theorem runEvents_replicate_same (k : Nat) (st : Bool) (l : List Bool) :
    runEvents st (List.replicate k st ++ l) = List.replicate k false ++ runEvents st l := by
  induction k with
  | zero => simp
  | succ k ih => simp [List.replicate_succ, runEvents, ih]

/-- C2: starting from the Stationary state, every run of
`motion_led.main` whose per-sample `is_moving_now` decisions `bs` agree
pointwise with the `isMoving` formula on the sample sequence satisfies:
the stored state after each cycle is that cycle's decision, the
transition-event trace marks exactly the cycles whose decision differs
from the previous stored state (so no event fires when they agree, in
either direction); and in the special case of a decision sequence that
crosses the threshold once and never re-crosses (`m` stationary samples
then `n ≥ 1` moving ones) exactly one transition event is produced. -/
theorem C2_classifier_edge_events (samples : List Sample) (bs : List Bool)
    (hlen : bs.length = samples.length)
    (hcorr : ∀ (i : Nat) (hb : i < bs.length) (hs : i < samples.length),
      bs.get ⟨i, hb⟩ = true ↔ isMoving (samples.get ⟨i, hs⟩)) :
    runStates false bs = bs ∧
    runEvents false bs = List.zipWith (fun a b => a != b) bs (false :: bs) ∧
    ∀ m n : Nat, 0 < n → bs = List.replicate m false ++ List.replicate n true →
      eventCount false bs = 1 := by
  refine ⟨runStates_eq bs false, runEvents_eq_zipWith bs false, ?_⟩
  intro m n hn hshape
  subst hshape
  obtain ⟨k, rfl⟩ : ∃ k, n = k + 1 := ⟨n - 1, by omega⟩
  rw [eventCount, runEvents_replicate_same m false _]
  have : runEvents false (List.replicate (k + 1) true) =
      true :: List.replicate k false := by
    rw [List.replicate_succ, runEvents,
      show runEvents true (List.replicate k true) =
        List.replicate k false ++ runEvents true [] from
        by simpa using runEvents_replicate_same k true []]
    simp [runEvents]
  rw [this]
  simp [List.count_append, List.count_replicate, List.count_cons]

/-- C6: a poll cycle of `motion_led.main` whose acceleration triple is
exactly `(0, 0, 0)` runs no classification step: the stored motion state
is unchanged and neither an LED write nor a transition action occurs,
whatever the gyro reading and the pending motion decision. -/
theorem C6_zero_accel_skips_cycle (st mv : Bool) (gx gy gz : ℚ) :
    cycleStep st mv ⟨0, 0, 0, gx, gy, gz⟩ = (st, none, false) := by
  simp [cycleStep]

/-- Helper: a device at rest with gravity along z and no rotation is not
classified as moving. -/
theorem not_isMoving_at_rest : ¬ isMoving ⟨0, 0, 9.80665, 0, 0, 0⟩ := by
  have hg : ((9.80665 : ℚ) : ℝ) = 9.80665 := by norm_num
  have h0 : ((0 : ℚ) : ℝ) = 0 := by norm_num
  have h3 : ((3.419 : ℚ) : ℝ) = 3.419 := by norm_num
  have h10 : ((10.0 : ℚ) : ℝ) = 10 := by norm_num
  simp only [isMoving, GRAVITIY_MS2, ACCEL_DELTA_THRESHOLD, GYRO_MAG_THRESHOLD,
    hg, h0, h3, h10]
  rw [not_or]
  constructor
  · rw [show (0 : ℝ) ^ 2 + 0 ^ 2 + (9.80665 : ℝ) ^ 2 = 9.80665 ^ 2 by ring,
      Real.sqrt_sq (by norm_num : (0 : ℝ) ≤ 9.80665)]
    norm_num
  · rw [show (0 : ℝ) ^ 2 + 0 ^ 2 + 0 ^ 2 = 0 by ring, Real.sqrt_zero]
    norm_num

/-- Helper: a device rotating at 20 deg/s about z exceeds the gyro
threshold and is classified as moving. -/
theorem isMoving_rotating : isMoving ⟨0, 0, 9.80665, 0, 0, 20⟩ := by
  have h20 : ((20 : ℚ) : ℝ) = 20 := by norm_num
  have h0 : ((0 : ℚ) : ℝ) = 0 := by norm_num
  have h10 : ((10.0 : ℚ) : ℝ) = 10 := by norm_num
  refine Or.inr ?_
  simp only [GYRO_MAG_THRESHOLD, h20, h0, h10]
  rw [show (0 : ℝ) ^ 2 + 0 ^ 2 + (20 : ℝ) ^ 2 = 20 ^ 2 by ring,
    Real.sqrt_sq (by norm_num : (0 : ℝ) ≤ 20)]
  norm_num

/-- Witness for C2: one at-rest sample followed by one rotating sample
crosses the threshold once and yields exactly one transition event. -/
theorem C2_classifier_edge_events_witness :
    runStates false [false, true] = [false, true] ∧
    runEvents false [false, true] =
      List.zipWith (fun a b => a != b) [false, true] (false :: [false, true]) ∧
    eventCount false [false, true] = 1 := by
  have h := C2_classifier_edge_events
    [⟨0, 0, 9.80665, 0, 0, 0⟩, ⟨0, 0, 9.80665, 0, 0, 20⟩] [false, true] rfl ?_
  · exact ⟨h.1, h.2.1, h.2.2 1 1 (by norm_num) rfl⟩
  · intro i hb hs
    have h2 : i < 2 := by simpa using hb
    interval_cases i
    · simpa using not_isMoving_at_rest
    · simpa using isMoving_rotating

/-- The decimal digit character for `d` (`0 ↦ '0'`, ..., `9 ↦ '9'`). -/
def digitChar (d : Nat) : Char := Char.ofNat (48 + d)

/-- Decimal digit characters of a natural number, most significant first
(the rendering of the integer part in Python string formatting). -/
def natDigits (n : Nat) : List Char :=
  if h : n < 10 then [digitChar n]
  else natDigits (n / 10) ++ [digitChar (n % 10)]
termination_by n
decreasing_by
  exact Nat.div_lt_self (by omega) (by norm_num)

/-- Decimal digit string of a natural number. -/
def natStr (n : Nat) : String := String.mk (natDigits n)

/-- The four zero-padded fractional digits of `m` scaled by 10⁻⁴: the
digits of `m % 10000`, thousands place first. -/
def frac4 (m : Nat) : List Char :=
  [digitChar (m / 1000 % 10), digitChar (m / 100 % 10), digitChar (m / 10 % 10),
    digitChar (m % 10)]

/-- Python's fixed-point formatting `f"{q:.4f}"` used by
`mpu6050_recorder.main`: round to the nearest multiple of 10⁻⁴ and print
sign, integer part, a point and exactly four fractional digits. -/
def format4 (q : ℚ) : String :=
  let n : ℤ := round (q * 10000)
  let m : Nat := n.natAbs
  (if n < 0 then "-" else "") ++ natStr (m / 10000) ++ "." ++ String.mk (frac4 m)

/-- One recorded sample of `mpu6050_recorder.main`: the Unix-epoch-seconds
timestamp, three acceleration components (m/s²) and three angular-rate
components (deg/s). -/
structure CsvRecord where
  t : ℚ
  ax : ℚ
  ay : ℚ
  az : ℚ
  gx : ℚ
  gy : ℚ
  gz : ℚ

/-- The header line written first by `mpu6050_recorder.main`. -/
def csvHeader : String :=
  "Timestamp,Ax(m/s^2),Ay(m/s^2),Az(m/s^2),Gx(deg/s),Gy(deg/s),Gz(deg/s)\n"

/-- The `data_line` f-string of `mpu6050_recorder.main`: the seven values
formatted to four decimal places, comma separated, newline terminated. -/
def dataLine (r : CsvRecord) : String :=
  format4 r.t ++ "," ++ format4 r.ax ++ "," ++ format4 r.ay ++ "," ++ format4 r.az ++
    "," ++ format4 r.gx ++ "," ++ format4 r.gy ++ "," ++ format4 r.gz ++ "\n"

/-- The sequence of lines a recording run writes: the header, then one
data line per sample. -/
def csvLines (samples : List CsvRecord) : List String :=
  csvHeader :: samples.map dataLine

/-- Helper: `digitChar` of a digit is a digit character. -/
theorem digitChar_isDigit (d : Nat) (hd : d < 10) : (digitChar d).isDigit = true := by
  interval_cases d <;> decide

/-- C9: every recording run's first line is exactly the header
`Timestamp,Ax(m/s^2),Ay(m/s^2),Az(m/s^2),Gx(deg/s),Gy(deg/s),Gz(deg/s)`
followed by a newline; the remaining lines are one data line per sample,
each the comma-separated, newline-terminated concatenation of the
timestamp and the six values formatted by `format4`, whose output always
ends in a point followed by exactly four decimal digits. -/
theorem C9_csv_record_format (samples : List CsvRecord) :
    (csvLines samples).head? =
      some ("Timestamp,Ax(m/s^2),Ay(m/s^2),Az(m/s^2),Gx(deg/s),Gy(deg/s),Gz(deg/s)"
        ++ "\n") ∧
    (csvLines samples).tail = samples.map dataLine ∧
    (∀ r : CsvRecord, dataLine r =
      format4 r.t ++ "," ++ format4 r.ax ++ "," ++ format4 r.ay ++ "," ++ format4 r.az ++
        "," ++ format4 r.gx ++ "," ++ format4 r.gy ++ "," ++ format4 r.gz ++ "\n") ∧
    (∀ q : ℚ, ∃ (a : String) (ds : List Char), format4 q = a ++ "." ++ String.mk ds ∧
      ds.length = 4 ∧ ∀ c ∈ ds, c.isDigit = true) := by
  refine ⟨rfl, rfl, fun r => rfl, fun q => ?_⟩
  refine ⟨(if round (q * 10000) < 0 then "-" else "") ++
      natStr ((round (q * 10000)).natAbs / 10000),
    frac4 (round (q * 10000)).natAbs, ?_, rfl, ?_⟩
  · simp [format4]
  · intro c hc
    simp only [frac4, List.mem_cons, List.not_mem_nil, or_false] at hc
    rcases hc with rfl | rfl | rfl | rfl <;>
      exact digitChar_isDigit _ (Nat.mod_lt _ (by norm_num))

end MPU6050
